import Mathlib

/-!
Verification of the ChatVRM streaming chat / avatar-control core.

Shallow embedding of two source files:

* `pages/index.tsx` (the streaming chat page component): the per-chunk tag
  detection and sentence segmentation loop of `handleSendChat`
  (lines 216-270), the speech dispatch wrapper `handleSpeakAi`
  (lines 132-165), the websocket LLM callback busy gate (lines 296-317)
  and the avatar command handler (lines 333-420).
* `src/lib/avatarClient.ts`: the `AvatarClient` websocket command-channel
  client (connect / disconnect / reconnect-timer state machine).

JavaScript strings are embedded as `List Char` (all characters involved are
BMP code points, so JS UTF-16 lengths coincide with character counts).
Stateful code is embedded as explicit state records with step functions;
externally visible actions (timers, socket operations, outbound frames) are
returned as explicit effect lists so that ordering claims can be stated.
-/

namespace ChatVRM

/-! ## Segmentation: `handleSendChat` chunk loop (part_000, lines 216-270) -/

/-- Whitespace class used for JavaScript `\s` and `trimStart`
(the practically occurring members of the JS whitespace set). -/
def isJsWhitespace (c : Char) : Bool :=
  c == ' ' || c == '\t' || c == '\n' || c == '\r' ||
  c == '\x0b' || c == '\x0c' || c == '\u00A0' || c == '\u2028' ||
  c == '\u2029' || c == '\u3000' || c == '\uFEFF'

/-- Sentence-terminal character class `[。．！？\n.!?]` of the segmentation
regex `/^(.+[。．！？\n.!?]|.{10,}[、,])/` (part_000, line 237). -/
def isTerminal (c : Char) : Bool :=
  c == '。' || c == '．' || c == '！' || c == '？' ||
  c == '\n' || c == '.' || c == '!' || c == '?'

/-- Comma-separator character class `[、,]` of the segmentation regex
(part_000, line 237). -/
def isComma (c : Char) : Bool :=
  c == '、' || c == ','

/-- Bracket/quote/whitespace class of the skip regex
`/^[\s\[\(\{「［（【『〈《〔｛«‹〘〚〛〙›»〕》〉』】）］」\}\)\]]+$/`
(part_000, line 253). -/
def isBracketQuote (c : Char) : Bool :=
  isJsWhitespace c ||
  c == '[' || c == '(' || c == '{' || c == '「' || c == '［' || c == '（' ||
  c == '【' || c == '『' || c == '〈' || c == '《' || c == '〔' || c == '｛' ||
  c == '«' || c == '‹' || c == '〘' || c == '〚' || c == '〛' || c == '〙' ||
  c == '›' || c == '»' || c == '〕' || c == '》' || c == '〉' || c == '』' ||
  c == '】' || c == '）' || c == '］' || c == '」' ||
  c == '}' || c == ')' || c == ']'

/-- JavaScript `sentence.replace(skipClass, "")` is empty exactly when every
character of the sentence lies in the skip class (part_000, lines 251-258). -/
def skippable (s : List Char) : Bool :=
  s.all isBracketQuote

/-- JavaScript `String.prototype.trimStart` (part_000, line 248). -/
def trimStart (s : List Char) : List Char :=
  s.dropWhile isJsWhitespace

/-- Greedy matcher for the regex fragment `[^\n]*p-char` anchored at the
start: `lastHit p s = some m` when `m` is the largest length such that the
first `m - 1` characters of `s` are not newlines and the `m`-th character
satisfies `p`.  This is the backtracking semantics of a greedy `.`-run
followed by a one-character class, `.` not matching `\n`. -/
def lastHit (p : Char → Bool) : List Char → Option Nat
  | [] => none
  | c :: rest =>
    if c == '\n' then (if p c then some 1 else none)
    else
      match lastHit p rest with
      | some m => some (m + 1)
      | none => if p c then some 1 else none

/-- Length matched by the first regex alternative `.+[。．！？\n.!?]`
at the start of the buffer (part_000, line 237): at least one non-newline
character, then a terminal character, greedy. -/
def matchALen : List Char → Option Nat
  | [] => none
  | c :: rest =>
    if c == '\n' then none
    else
      match lastHit isTerminal rest with
      | some m => some (m + 1)
      | none => none

/-- Length matched by the second regex alternative `.{10,}[、,]` at the
start of the buffer (part_000, line 237): at least ten non-newline
characters, then a comma-class character, greedy. -/
def matchBLen (s : List Char) : Option Nat :=
  if (s.take 10).length == 10 && (s.take 10).all (fun c => !(c == '\n')) then
    match lastHit isComma (s.drop 10) with
    | some m => some (m + 10)
    | none => none
  else none

/-- `receivedMessage.match(/^(.+[。．！？\n.!?]|.{10,}[、,])/)` (part_000,
lines 236-238): JS alternation tries the first alternative first and commits
to it whenever it matches at all. -/
def sentenceMatch (s : List Char) : Option Nat :=
  match matchALen s with
  | some n => some n
  | none => matchBLen s

/-- One sentence-extraction step on a buffer whose leading tag has already
been stripped (part_000, lines 236-248): on a match the unit is cut off the
front and the remainder is `trimStart`-ed; otherwise the buffer is
untouched. -/
def segStep (buf : List Char) : Option (List Char) × List Char :=
  match sentenceMatch buf with
  | some n => (some (buf.take n), trimStart (buf.drop n))
  | none => (none, buf)

/-- Lazy matcher for the tag regex body: index of the first `]` in the list,
provided no newline occurs before it (`.` in `/^\[(.*?)\]/` does not match
newlines, and `(.*?)` is lazy, so the tag closes at the first `]`). -/
def findTagEnd : List Char → Option Nat
  | [] => none
  | c :: rest =>
    if c == ']' then some 0
    else if c == '\n' then none
    else
      match findTagEnd rest with
      | some k => some (k + 1)
      | none => none

/-- `receivedMessage.match(/^\[(.*?)\]/)` (part_000, line 226): a leading
bracketed tag at offset 0; returns the whole matched tag (brackets
included) and the remaining buffer. -/
def tagMatch (s : List Char) : Option (List Char × List Char) :=
  match s with
  | '[' :: rest =>
    match findTagEnd rest with
    | some k => some (s.take (k + 2), s.drop (k + 2))
    | none => none
  | _ => none

/-- State of one chat turn's streaming loop (part_000, lines 211-214):
the unconsumed buffer `receivedMessage`, the running `tag`, the pushed
`sentences`, and the `aiText`s handed to `handleSpeakAi` in order. -/
structure TurnState where
  buffer : List Char
  tag : List Char
  sentences : List (List Char)
  dispatched : List (List Char)
deriving DecidableEq

/-- What one chunk iteration did: the tag detected this chunk (if any), the
sentence unit extracted (if any), and the `aiText` dispatched for speech
(if any). -/
structure StepInfo where
  detected : Option (List Char)
  unit : Option (List Char)
  spoken : Option (List Char)
deriving DecidableEq

/-- Tag detection of one chunk iteration (part_000, lines 226-233): result
is the running tag, the possibly-stripped buffer, and the newly detected
tag if there was one. -/
def tagScan (tag : List Char) (s : List Char) :
    List Char × List Char × Option (List Char) :=
  match tagMatch s with
  | some (t, r) => (t, r, some t)
  | none => (tag, s, none)

/-- Sentence part of one chunk iteration (part_000, lines 236-269), applied
to the tag-scan result `tdb = (tag, buffer, detected)`: on a match the
sentence is pushed; a unit made only of bracket/quote/whitespace characters
is consumed but dispatches nothing; otherwise `tag + " " + sentence` is
dispatched for speech. -/
def chunkSeg (st : TurnState) (tdb : List Char × List Char × Option (List Char)) :
    TurnState × StepInfo :=
  match segStep tdb.2.1 with
  | (none, b) =>
    (⟨b, tdb.1, st.sentences, st.dispatched⟩, ⟨tdb.2.2, none, none⟩)
  | (some s, buf2) =>
    if skippable s then
      (⟨buf2, tdb.1, st.sentences ++ [s], st.dispatched⟩, ⟨tdb.2.2, some s, none⟩)
    else
      (⟨buf2, tdb.1, st.sentences ++ [s],
        st.dispatched ++ [tdb.1 ++ (' ' :: s)]⟩,
       ⟨tdb.2.2, some s, some (tdb.1 ++ (' ' :: s))⟩)

/-- One full chunk iteration of the streaming loop (part_000, lines
216-270): append the chunk, detect/strip a leading tag, then run one
sentence-extraction step. -/
def chunkStep (st : TurnState) (chunk : List Char) : TurnState × StepInfo :=
  chunkSeg st (tagScan st.tag (st.buffer ++ chunk))

/-- The whole turn: fold `chunkStep` over the stream's chunks, collecting
per-chunk step information. -/
def runChunks : TurnState → List (List Char) → TurnState × List StepInfo
  | st, [] => (st, [])
  | st, c :: cs =>
    ((runChunks (chunkStep st c).1 cs).1,
     (chunkStep st c).2 :: (runChunks (chunkStep st c).1 cs).2)

/-- Start of a turn (part_000, lines 211-214): empty buffer, empty tag, no
sentences, nothing dispatched. -/
def initialTurn : TurnState := ⟨[], [], [], []⟩

/-- Shape of a unit matched by the first alternative, as the specification
words it: one or more characters followed by a sentence-terminal. -/
def unitShapeA (u : List Char) : Prop :=
  ∃ b c, u = b ++ [c] ∧ b ≠ [] ∧ isTerminal c = true

/-- Shape of a unit matched by the second alternative, as the specification
words it: at least ten characters followed by a comma-class separator. -/
def unitShapeB (u : List Char) : Prop :=
  ∃ b c, u = b ++ [c] ∧ 10 ≤ b.length ∧ isComma c = true

/-- The tag in force after a step history: the most recently detected tag,
or the initial one when none was detected. -/
def lastDetected (t : List Char) (h : List StepInfo) : List Char :=
  h.foldl (fun a si => si.detected.getD a) t

/-- A dispatched utterance is well-tagged for running tag `t`: it is `t`,
a space, and the extracted sentence (part_000, line 260). -/
def spokenOk (t : List Char) (si : StepInfo) : Prop :=
  match si.spoken with
  | none => True
  | some u => ∃ s, si.unit = some s ∧ u = t ++ (' ' :: s)

/-- Every dispatched utterance of the history carries the running tag in
force at its own step (initial tag `t`, updated at each detection). -/
def taggedOk : List Char → List StepInfo → Prop
  | _, [] => True
  | t, si :: h =>
    spokenOk (si.detected.getD t) si ∧ taggedOk (si.detected.getD t) h

/-- The sentences dispatched for speech in a step history, in order. -/
def spokenList (h : List StepInfo) : List (List Char) :=
  h.filterMap (fun si => si.spoken)

/-! ## Async structure of the turn loop (part_000, lines 216-270)

The loop body suspends only on `await reader.read()`; the call
`handleSpeakAi(...)` on line 266 is not awaited.  The trace below records
the loop's suspension points and dispatch call sites in program order. -/

/-- Events of the chat turn's control flow: an awaited chunk read, the
issuing of a speech dispatch (a call of `handleSpeakAi`), and an await of a
previously issued dispatch's settlement.  The source loop never performs
the third kind. -/
inductive TurnEv
  | awaitRead (i : Nat)
  | issueDispatch (k : Nat) (u : List Char)
  | awaitSettle (k : Nat)
deriving DecidableEq

/-- Control-flow trace of the streaming loop on a chunk list: each
iteration awaits one read, then (when a speakable unit was extracted)
issues one dispatch without awaiting it (part_000, lines 217 and 266). -/
def turnTraceAux : TurnState → Nat → List (List Char) → List TurnEv
  | _, _, [] => []
  | st, i, c :: cs =>
    TurnEv.awaitRead i ::
      ((match (chunkStep st c).2.spoken with
        | some u => [TurnEv.issueDispatch st.dispatched.length u]
        | none => []) ++
       turnTraceAux (chunkStep st c).1 (i + 1) cs)

/-- Control-flow trace of a whole turn from the initial state. -/
def turnTrace (cs : List (List Char)) : List TurnEv :=
  turnTraceAux initialTurn 0 cs

/-- Sentences issued for dispatch along a trace, in trace order. -/
def issuedTexts (tr : List TurnEv) : List (List Char) :=
  tr.filterMap (fun e =>
    match e with
    | TurnEv.issueDispatch _ u => some u
    | _ => none)

/-- Whether a trace ever awaits a dispatch's settlement. -/
def noSettle (tr : List TurnEv) : Bool :=
  tr.all (fun e =>
    match e with
    | TurnEv.awaitSettle _ => false
    | _ => true)

/-- Scan deciding whether every issued dispatch is awaited before the next
one is issued; `pending` records an issued-but-not-awaited dispatch. -/
def dispatchAwaited : List TurnEv → Bool → Bool
  | [], _ => true
  | TurnEv.issueDispatch _ _ :: tr, pending =>
    if pending then false else dispatchAwaited tr true
  | TurnEv.awaitSettle _ :: tr, _ => dispatchAwaited tr false
  | TurnEv.awaitRead _ :: tr, pending => dispatchAwaited tr pending

/-- The caller awaits each dispatch's settlement before issuing the next
one (the sequencing mechanism the specification asserts). -/
def callerAwaitsEachDispatch (tr : List TurnEv) : Bool :=
  dispatchAwaited tr false

/-- Modelled from the spec: the external synthesis/playback capability
`speakCharacter` (imported on part_000 line 9; its module
`features/messages/speakCharacter` is not among these sources).  Per §4.3
the dispatcher "guarantees units are played in extraction order": playback
is serialized, each unit's playback starting when the previous one ends.
Given a start instant and the units' playback durations, this yields each
unit's playback interval. -/
def schedulePlayback : Nat → List Nat → List (Nat × Nat)
  | _, [] => []
  | t, d :: ds => (t, t + d) :: schedulePlayback (t + d) ds

/-! ## Speech dispatch wrapper `handleSpeakAi` (part_000, lines 132-165) -/

/-- Observable events of one `handleSpeakAi` call: updates of the
`isAISpeaking` flag, the issuing of the synthesis/playback request, the
playback callbacks, and the error log of the catch branch. -/
inductive SpeakEv
  | setSpeaking (b : Bool)
  | requestSpeech
  | playbackStart
  | playbackEnd
  | logError
deriving DecidableEq

/-- One `handleSpeakAi` call, with the external `speakCharacter` outcome as
a parameter: set the speaking flag, issue the request inside `try`, log in
`catch`, reset the flag in `finally`.  The second component is the
exception escaping the call (none: the catch swallows failures). -/
def handleSpeakAiRun (outcome : Except String Unit) :
    List SpeakEv × Option String :=
  (SpeakEv.setSpeaking true :: SpeakEv.requestSpeech ::
    (match outcome with
     | Except.ok _ => [SpeakEv.playbackStart, SpeakEv.playbackEnd]
     | Except.error _ => [SpeakEv.logError]) ++
    [SpeakEv.setSpeaking false],
   none)

/-- The `isAISpeaking` flag after a sequence of events, from initial
value `b`. -/
def speakingAfter (b : Bool) (tr : List SpeakEv) : Bool :=
  tr.foldl (fun f e =>
    match e with
    | SpeakEv.setSpeaking v => v
    | _ => f) b

/-! ## Busy gate of the websocket LLM callback (part_000, lines 296-317) -/

/-- Result type of the LLM callback (part_000, lines 38-41). -/
structure LLMResult where
  processed : Bool
  error : Option String
deriving DecidableEq

/-- The literal refusal message of the busy branch (part_000, line 302). -/
def busyMessage : String := "System is busy processing previous message"

/-- The websocket LLM callback (part_000, lines 296-317) as a function of
the three busy flags: the refusal result and whether `handleSendChat` was
invoked.  A busy rejection returns synchronously without invoking the
pipeline and without storing the message anywhere. -/
def llmCallbackModel (chatProcessing isAISpeaking isPlayingAudio : Bool) :
    LLMResult × Bool :=
  if isAISpeaking || isPlayingAudio || chatProcessing then
    (⟨false, some busyMessage⟩, false)
  else
    (⟨true, none⟩, true)

/-! ## The `AvatarClient` command-channel client (avatarClient.ts) -/

/-- WebSocket ready states relevant to the client. -/
inductive ReadyState
  | connecting
  | opened
  | closed
deriving DecidableEq

/-- The client's current socket: its ready state and whether the client's
`onopen`/`onmessage`/`onerror`/`onclose` callbacks are still attached
(`disconnect` nulls them before closing, lines 109-113). -/
structure Socket where
  readyState : ReadyState
  handlersAttached : Bool
deriving DecidableEq

/-- Client state (avatarClient.ts, lines 33-40): the socket, the
`reconnectTimer` field, the multiset of actually outstanding timers
(fresh ids from `nextId`), and the `connected` / `destroyed` flags.
Keeping the outstanding timers separate from the `reconnectTimer` field
makes "timers never stack" a provable property instead of a modelling
assumption. -/
structure ClientState where
  ws : Option Socket
  timerField : Option Nat
  outstanding : List Nat
  nextId : Nat
  connected : Bool
  destroyed : Bool
deriving DecidableEq

/-- Outbound frames the client writes to the channel. -/
inductive OutFrame
  | identifyFrame (role : String)
  | statusFrame (connected : Bool) (speaking : Bool) (expression : String)
deriving DecidableEq

/-- Externally visible effects of client operations. -/
inductive Eff
  | createSocket
  | startTimer (id : Nat) (delayMs : Nat)
  | cancelTimer (id : Nat)
  | detachHandlers
  | closeSocket
  | notifyChange (connected : Bool)
  | sendFrame (f : OutFrame)
deriving DecidableEq

/-- The fixed reconnect delay (avatarClient.ts, line 35). -/
def reconnectInterval : Nat := 5000

/-- A freshly constructed client (avatarClient.ts, lines 33-44). -/
def initialClient : ClientState := ⟨none, none, [], 0, false, false⟩

/-- `scheduleReconnect` (avatarClient.ts, lines 166-176): a no-op when the
`reconnectTimer` field is set, otherwise starts one timer with the fixed
delay and records it. -/
def scheduleReconnect (st : ClientState) : ClientState × List Eff :=
  match st.timerField with
  | some _ => (st, [])
  | none =>
    (⟨st.ws, some st.nextId, st.outstanding ++ [st.nextId], st.nextId + 1,
      st.connected, st.destroyed⟩,
     [Eff.startTimer st.nextId reconnectInterval])

/-- The `if (this.reconnectTimer) { clearTimeout(...); null }` idiom
(avatarClient.ts, lines 65-68 and 103-106). -/
def clearReconnectTimer (st : ClientState) : ClientState × List Eff :=
  match st.timerField with
  | some i =>
    (⟨st.ws, none, st.outstanding.filter (fun j => j != i), st.nextId,
      st.connected, st.destroyed⟩,
     [Eff.cancelTimer i])
  | none => (st, [])

/-- `connect()` (avatarClient.ts, lines 46-98): returns immediately when
destroyed or when the current socket is already open; otherwise creates a
fresh socket with all callbacks attached.  (Socket construction is modelled
as always succeeding; the open/close outcomes arrive as separate events.) -/
def connectStep (st : ClientState) : ClientState × List Eff :=
  if st.destroyed then (st, [])
  else
    match st.ws with
    | some s =>
      if s.readyState = ReadyState.opened then (st, [])
      else
        (⟨some ⟨ReadyState.connecting, true⟩, st.timerField, st.outstanding,
          st.nextId, st.connected, st.destroyed⟩,
         [Eff.createSocket])
    | none =>
      (⟨some ⟨ReadyState.connecting, true⟩, st.timerField, st.outstanding,
        st.nextId, st.connected, st.destroyed⟩,
       [Eff.createSocket])

/-- State right after the `onopen` body's flag updates (lines 61-64). -/
def wsOpenAfter (st : ClientState) (s : Socket) : ClientState :=
  ⟨some ⟨ReadyState.opened, s.handlersAttached⟩, st.timerField,
   st.outstanding, st.nextId, true, st.destroyed⟩

/-- The socket's `onopen` firing (avatarClient.ts, lines 61-72): only acts
when the client's callbacks are still attached; sets `connected`, notifies
handlers, clears a pending timer, then sends the identification frame. -/
def wsOpenStep (st : ClientState) : ClientState × List Eff :=
  match st.ws with
  | some s =>
    if s.handlersAttached then
      ((clearReconnectTimer (wsOpenAfter st s)).1,
       Eff.notifyChange true :: (clearReconnectTimer (wsOpenAfter st s)).2 ++
         [Eff.sendFrame (OutFrame.identifyFrame "renderer")])
    else (st, [])
  | none => (st, [])

/-- State right after the `onclose` body's flag updates (lines 88-91). -/
def wsCloseAfter (st : ClientState) (s : Socket) : ClientState :=
  ⟨some ⟨ReadyState.closed, s.handlersAttached⟩, st.timerField,
   st.outstanding, st.nextId, false, st.destroyed⟩

/-- The socket's `onclose` firing (avatarClient.ts, lines 88-93): only acts
when the client's callbacks are still attached; clears `connected`,
notifies handlers, then schedules a reconnect. -/
def wsCloseStep (st : ClientState) : ClientState × List Eff :=
  match st.ws with
  | some s =>
    if s.handlersAttached then
      ((scheduleReconnect (wsCloseAfter st s)).1,
       Eff.notifyChange false :: (scheduleReconnect (wsCloseAfter st s)).2)
    else (st, [])
  | none => (st, [])

/-- The reconnect timer firing (avatarClient.ts, lines 172-175): only a
still-outstanding timer can fire; the callback nulls the field and calls
`connect()`. -/
def timerFireStep (st : ClientState) (id : Nat) : ClientState × List Eff :=
  if st.outstanding.contains id then
    connectStep
      ⟨st.ws, none, st.outstanding.filter (fun j => j != id), st.nextId,
       st.connected, st.destroyed⟩
  else (st, [])

/-- Timers cancelled by `disconnect`'s `clearTimeout` (lines 103-106). -/
def cancelAll : Option Nat → List Nat → List Nat
  | some i, out => out.filter (fun j => j != i)
  | none, out => out

/-- Cancel effect of `disconnect` (lines 103-106). -/
def timerCancelEffs : Option Nat → List Eff
  | some i => [Eff.cancelTimer i]
  | none => []

/-- Teardown effects of `disconnect` (lines 108-116): callbacks are
detached strictly before the socket is closed. -/
def closeEffs : Option Socket → List Eff
  | some _ => [Eff.detachHandlers, Eff.closeSocket]
  | none => []

/-- `disconnect()` (avatarClient.ts, lines 100-119): sets `destroyed`,
cancels a pending timer, detaches the socket callbacks before closing, and
clears `connected`. -/
def disconnectStep (st : ClientState) : ClientState × List Eff :=
  (⟨none, none, cancelAll st.timerField st.outstanding, st.nextId, false, true⟩,
   timerCancelEffs st.timerField ++ closeEffs st.ws)

/-- Events driving the client: API calls, socket lifecycle callbacks, and
timer expiry. -/
inductive ClientEv
  | evConnect
  | evWsOpen
  | evWsClose
  | evTimerFire (id : Nat)
  | evDisconnect
deriving DecidableEq

/-- Dispatch of one event to the client's step functions. -/
def clientStep (st : ClientState) : ClientEv → ClientState × List Eff
  | ClientEv.evConnect => connectStep st
  | ClientEv.evWsOpen => wsOpenStep st
  | ClientEv.evWsClose => wsCloseStep st
  | ClientEv.evTimerFire id => timerFireStep st id
  | ClientEv.evDisconnect => disconnectStep st

/-- Run of the client over an event list, accumulating all effects. -/
def runClient : ClientState → List ClientEv → ClientState × List Eff
  | st, [] => (st, [])
  | st, e :: es =>
    ((runClient (clientStep st e).1 es).1,
     (clientStep st e).2 ++ (runClient (clientStep st e).1 es).2)

/-- The `reconnectTimer` field agrees with the actually outstanding timers:
no timer without the field, and the field's timer is the only one. -/
def timerInvB (st : ClientState) : Bool :=
  match st.timerField with
  | none => st.outstanding.isEmpty
  | some i => st.outstanding == [i]

/-- `isConnected()` (avatarClient.ts, lines 121-123). -/
def isConnectedB (st : ClientState) : Bool :=
  st.connected &&
    (match st.ws with
     | some s => if s.readyState = ReadyState.opened then true else false
     | none => false)

/-- `send(message)` (avatarClient.ts, lines 143-154): transmits only when
`isConnected()`, otherwise warns and drops the frame. -/
def clientSendStep (st : ClientState) (f : OutFrame) : List Eff :=
  if isConnectedB st then [Eff.sendFrame f] else []

/-- Transmission of a list of frames through `send`. -/
def sendAll (st : ClientState) : List OutFrame → List Eff
  | [] => []
  | f :: fs => clientSendStep st f ++ sendAll st fs

/-! ## The avatar command handler (part_000, lines 333-420) -/

/-- Inbound commands after decoding, as the handler's `switch` sees them
(part_000, lines 337-416; avatarClient.ts, lines 6-27). -/
inductive Command
  | speakCmd (text : String) (emotion : String) (audioUrl : String)
  | setExpressionCmd (name : String)
  | setIdleCmd (mode : String)
  | getStatusCmd
  | identifyAckCmd
  | initialStateCmd
  | unknownCmd (t : String)
deriving DecidableEq

/-- Presentation-layer actions of the command handler (everything the
switch does besides `client.send`). -/
inductive RouterAct
  | speakModel (emotion : String) (text : String) (audioUrl : String)
  | playEmotion (name : String)
  | idleNoted (mode : String)
  | handshakeNoted
  | warnedUnknown (t : String)
deriving DecidableEq

/-- The `onCommand` handler's switch (part_000, lines 337-416) as a
function of the `isAISpeaking` value held by the handler's closure:
presentation actions, and the frames it asks the client to send.  Only the
`getStatus` arm calls `client.send`, with `connected: true`,
`speaking: isAISpeaking`, `expression: 'neutral'` (lines 398-407).  The
closure's `isAISpeaking` is the value captured when the handler was
registered (see `registerOnCommand`), not the flag current when a command
is processed. -/
def onCommandStep (speaking : Bool) : Command → List RouterAct × List OutFrame
  | Command.speakCmd text emotion audioUrl =>
    ([RouterAct.speakModel emotion text audioUrl], [])
  | Command.setExpressionCmd name => ([RouterAct.playEmotion name], [])
  | Command.setIdleCmd mode => ([RouterAct.idleNoted mode], [])
  | Command.getStatusCmd =>
    ([], [OutFrame.statusFrame true speaking "neutral"])
  | Command.identifyAckCmd => ([RouterAct.handshakeNoted], [])
  | Command.initialStateCmd => ([RouterAct.handshakeNoted], [])
  | Command.unknownCmd t => ([RouterAct.warnedUnknown t], [])

/-- The `onCommand` handler registration as the source performs it: the
avatar-client initialisation effect (part_000, lines 327-438) has
dependency list `[viewer]` and is guarded by `!avatarClient.current`
(line 328), so the handler is registered exactly once and its closure
captures the `isAISpeaking` value of that one render; later changes of the
flag never re-register it. -/
structure HandlerRegistration where
  capturedSpeaking : Bool
deriving DecidableEq

/-- Registering the `onCommand` handler captures the render-time flag. -/
def registerOnCommand (speakingAtRender : Bool) : HandlerRegistration :=
  ⟨speakingAtRender⟩

/-- The registration actually made by the source: the client is created on
the first render with a viewer, when `isAISpeaking` still holds its
initial value `false` (part_000, line 58). -/
def initialRegistration : HandlerRegistration :=
  registerOnCommand false

/-- Processing an inbound command through the registered handler: the
closure runs with its captured flag, whatever the dispatcher's flag is at
processing time. -/
def processCommand (reg : HandlerRegistration) (cmd : Command) :
    List RouterAct × List OutFrame :=
  onCommandStep reg.capturedSpeaking cmd

/-! ## Lemmas about the greedy matchers -/

theorem lastHit_sound (p : Char → Bool) :
    ∀ (s : List Char) (m : Nat), lastHit p s = some m →
      1 ≤ m ∧ m ≤ s.length ∧
      ∃ u c, s.take m = u ++ [c] ∧ u.length = m - 1 ∧ p c = true := by
  intro s
  induction s with
  | nil => intro m h; simp [lastHit] at h
  | cons c rest ih =>
    intro m h
    unfold lastHit at h
    by_cases hc : (c == '\n') = true
    · rw [if_pos hc] at h
      by_cases hp : p c = true
      · rw [if_pos hp] at h
        injection h with h'
        subst h'
        exact ⟨le_refl 1, by simp, [], c, by simp, rfl, hp⟩
      · rw [if_neg hp] at h
        exact absurd h (by simp)
    · rw [if_neg hc] at h
      split at h
      · rename_i m' hr
        injection h with h'
        subst h'
        obtain ⟨h1, h2, u, c', hu, hlen, hp'⟩ := ih m' hr
        refine ⟨by omega, by simp; omega, c :: u, c', ?_, ?_, hp'⟩
        · rw [List.take_succ_cons, hu]; rfl
        · simp [hlen]; omega
      · by_cases hp : p c = true
        · rw [if_pos hp] at h
          injection h with h'
          subst h'
          exact ⟨le_refl 1, by simp, [], c, by simp, rfl, hp⟩
        · rw [if_neg hp] at h
          exact absurd h (by simp)

theorem matchALen_shape :
    ∀ (s : List Char) (n : Nat), matchALen s = some n → unitShapeA (s.take n) := by
  intro s n h
  cases s with
  | nil => simp [matchALen] at h
  | cons c rest =>
    simp only [matchALen] at h
    by_cases hc : (c == '\n') = true
    · rw [if_pos hc] at h; exact absurd h (by simp)
    · rw [if_neg hc] at h
      split at h
      · rename_i m hr
        injection h with h'
        subst h'
        obtain ⟨_, _, u, c', hu, _, hp'⟩ := lastHit_sound isTerminal rest m hr
        refine ⟨c :: u, c', ?_, by simp, hp'⟩
        rw [List.take_succ_cons, hu]; rfl
      · exact absurd h (by simp)

theorem matchBLen_shape :
    ∀ (s : List Char) (n : Nat), matchBLen s = some n → unitShapeB (s.take n) := by
  intro s n h
  unfold matchBLen at h
  split at h
  · rename_i hcond
    split at h
    · rename_i m hr
      injection h with h'
      subst h'
      obtain ⟨_, _, u, c', hu, hlen, hp'⟩ := lastHit_sound isComma (s.drop 10) m hr
      refine ⟨s.take 10 ++ u, c', ?_, ?_, hp'⟩
      · rw [Nat.add_comm m 10, List.take_add, hu, List.append_assoc]
      · have h10 : (s.take 10).length = 10 := by
          have hl := hcond
          simp at hl
          obtain ⟨hl1, -⟩ := hl
          rw [List.length_take]
          omega
        simp [h10]
    · exact absurd h (by simp)
  · exact absurd h (by simp)

/-- C1: one segmentation step on a buffer (leading tag already stripped)
extracts at most one leading unit, which is either one-or-more characters
followed by a sentence-terminal character, or at least ten characters
followed by a comma-class separator; on a match the unit is removed from
the front and the remainder is left-trimmed of whitespace, and on no match
the buffer is left completely unchanged. -/
theorem claim1_segment_step (buf : List Char) :
    (sentenceMatch buf = none → segStep buf = (none, buf)) ∧
    (∀ n, sentenceMatch buf = some n →
      segStep buf = (some (buf.take n), trimStart (buf.drop n)) ∧
      buf.take n ++ buf.drop n = buf ∧
      (unitShapeA (buf.take n) ∨ unitShapeB (buf.take n))) := by
  constructor
  · intro h; simp [segStep, h]
  · intro n h
    refine ⟨by simp [segStep, h], List.take_append_drop n buf, ?_⟩
    unfold sentenceMatch at h
    split at h
    · rename_i m hA
      injection h with h'
      subst h'
      exact Or.inl (matchALen_shape buf m hA)
    · exact Or.inr (matchBLen_shape buf n h)

/-- C1 witness: the concrete buffer `"Hello world. "` yields exactly the
unit `"Hello world."` and an empty remainder. -/
theorem claim1_segment_step_witness :
    segStep "Hello world. ".toList = (some "Hello world.".toList, []) ∧
    (unitShapeA ("Hello world. ".toList.take 12) ∨
     unitShapeB ("Hello world. ".toList.take 12)) := by
  have h := (claim1_segment_step "Hello world. ".toList).2 12 (by decide)
  exact ⟨h.1.trans (by decide), h.2.2⟩

/-! ## Lemmas about one chunk iteration -/

theorem chunkSeg_tag (st : TurnState)
    (tdb : List Char × List Char × Option (List Char)) :
    (chunkSeg st tdb).1.tag = tdb.1 := by
  unfold chunkSeg
  split
  · rfl
  · split <;> rfl

theorem chunkSeg_det (st : TurnState)
    (tdb : List Char × List Char × Option (List Char)) :
    (chunkSeg st tdb).2.detected = tdb.2.2 := by
  unfold chunkSeg
  split
  · rfl
  · split <;> rfl

theorem chunkSeg_spokenOk (st : TurnState)
    (tdb : List Char × List Char × Option (List Char)) :
    spokenOk tdb.1 (chunkSeg st tdb).2 := by
  unfold chunkSeg
  split
  · trivial
  · split
    · trivial
    · exact ⟨_, rfl, rfl⟩

theorem tagScan_getD (t : List Char) (s : List Char) :
    ((tagScan t s).2.2).getD t = (tagScan t s).1 := by
  unfold tagScan
  split
  · rfl
  · rfl

theorem chunkStep_tag (st : TurnState) (c : List Char) :
    (chunkStep st c).1.tag = ((chunkStep st c).2.detected).getD st.tag := by
  unfold chunkStep
  rw [chunkSeg_tag, chunkSeg_det, tagScan_getD]

theorem chunkStep_spokenOk (st : TurnState) (c : List Char) :
    spokenOk (((chunkStep st c).2.detected).getD st.tag) (chunkStep st c).2 := by
  unfold chunkStep
  rw [chunkSeg_det, tagScan_getD]
  exact chunkSeg_spokenOk st (tagScan st.tag (st.buffer ++ c))

/-- C3: a leading bracketed tag detected at offset 0 of the buffer is
stripped and becomes the running tag; it is prepended to the utterance
extracted in its own step and to every subsequently extracted untagged
utterance of the turn, until a newly detected tag replaces it.  The run's
final tag is the most recently detected one. -/
theorem claim3_tag_persistence (st : TurnState) (cs : List (List Char)) :
    taggedOk st.tag (runChunks st cs).2 ∧
    (runChunks st cs).1.tag = lastDetected st.tag (runChunks st cs).2 := by
  induction cs generalizing st with
  | nil => exact ⟨trivial, rfl⟩
  | cons c cs ih =>
    have hstep := chunkStep_tag st c
    constructor
    · refine ⟨chunkStep_spokenOk st c, ?_⟩
      have h := (ih (chunkStep st c).1).1
      rw [hstep] at h
      exact h
    · have h := (ih (chunkStep st c).1).2
      simp only [runChunks, lastDetected, List.foldl_cons]
      rw [← hstep]
      exact h

/-- C4: an extracted unit consisting solely of whitespace and
bracket/quote-class characters produces no utterance and no speech
dispatch, but is still consumed from the front of the buffer (with the
remainder left-trimmed), so segmentation continues. -/
theorem claim4_skip_consumes (st : TurnState) (chunk : List Char) (n : Nat)
    (hm : sentenceMatch (tagScan st.tag (st.buffer ++ chunk)).2.1 = some n)
    (hskip : skippable ((tagScan st.tag (st.buffer ++ chunk)).2.1.take n) = true) :
    (chunkStep st chunk).1.dispatched = st.dispatched ∧
    (chunkStep st chunk).2.spoken = none ∧
    (chunkStep st chunk).2.unit =
      some ((tagScan st.tag (st.buffer ++ chunk)).2.1.take n) ∧
    (chunkStep st chunk).1.buffer =
      trimStart ((tagScan st.tag (st.buffer ++ chunk)).2.1.drop n) := by
  unfold chunkStep chunkSeg
  simp only [segStep, hm, hskip]
  simp

/-- C4 witness: the bracket-only unit `"【】\n"` is consumed without any
dispatch. -/
theorem claim4_skip_consumes_witness :
    (chunkStep initialTurn "【】\n".toList).1.dispatched = [] ∧
    (chunkStep initialTurn "【】\n".toList).2.spoken = none ∧
    (chunkStep initialTurn "【】\n".toList).2.unit =
      some ((tagScan initialTurn.tag (initialTurn.buffer ++ "【】\n".toList)).2.1.take 3) ∧
    (chunkStep initialTurn "【】\n".toList).1.buffer =
      trimStart ((tagScan initialTurn.tag (initialTurn.buffer ++ "【】\n".toList)).2.1.drop 3) := by
  have h := claim4_skip_consumes initialTurn "【】\n".toList 3 (by decide) (by decide)
  exact h

/-! ## Lemmas about the turn's control-flow trace -/

theorem issuedTexts_append (tr1 tr2 : List TurnEv) :
    issuedTexts (tr1 ++ tr2) = issuedTexts tr1 ++ issuedTexts tr2 := by
  simp [issuedTexts]

theorem issuedTexts_eq_spokenList :
    ∀ (cs : List (List Char)) (st : TurnState) (i : Nat),
      issuedTexts (turnTraceAux st i cs) = spokenList (runChunks st cs).2 := by
  intro cs
  induction cs with
  | nil => intro st i; rfl
  | cons c cs ih =>
    intro st i
    have h1 : ∀ tr : List TurnEv,
        issuedTexts (TurnEv.awaitRead i :: tr) = issuedTexts tr := by
      intro tr; simp [issuedTexts]
    show issuedTexts (TurnEv.awaitRead i :: (_ ++ _)) = _
    rw [h1, issuedTexts_append, ih]
    simp only [runChunks, spokenList, List.filterMap_cons]
    cases h : (chunkStep st c).2.spoken with
    | none => simp [h, issuedTexts, spokenList]
    | some u => simp [h, issuedTexts, spokenList]

theorem noSettle_turnTraceAux :
    ∀ (cs : List (List Char)) (st : TurnState) (i : Nat),
      noSettle (turnTraceAux st i cs) = true := by
  intro cs
  induction cs with
  | nil => intro st i; rfl
  | cons c cs ih =>
    intro st i
    have h2 := ih (chunkStep st c).1 (i + 1)
    cases h : (chunkStep st c).2.spoken with
    | none =>
      simp only [turnTraceAux, noSettle, h, List.all_cons, List.all_append] at *
      simpa using h2
    | some u =>
      simp only [turnTraceAux, noSettle, h, List.all_cons, List.all_append] at *
      simpa using h2

theorem schedulePlayback_chain :
    ∀ (ds : List Nat) (t : Nat) (i : Nat) (h : i + 1 < (schedulePlayback t ds).length),
      ((schedulePlayback t ds).get ⟨i, Nat.lt_of_succ_lt h⟩).2 ≤
      ((schedulePlayback t ds).get ⟨i + 1, h⟩).1 := by
  intro ds
  induction ds with
  | nil => intro t i h; simp [schedulePlayback] at h
  | cons d ds ih =>
    intro t i h
    cases i with
    | zero =>
      cases ds with
      | nil => simp [schedulePlayback] at h
      | cons d2 ds2 => simp [schedulePlayback]
    | succ i =>
      have h' : i + 1 < (schedulePlayback (t + d) ds).length := by
        simpa [schedulePlayback] using h
      simpa [schedulePlayback] using ih (t + d) i h'

/-- C2 counterexample: in the turn over the two chunks `"First. "` and
`"Second."`, the loop issues the second dispatch without ever awaiting the
settlement of the first — the source calls `handleSpeakAi` without `await`
(part_000, line 266) — refuting the claim that the caller never issues a
second dispatch before the previous dispatch call settles. -/
theorem claim2_counterexample :
    callerAwaitsEachDispatch
      (turnTrace ["First. ".toList, "Second.".toList]) = false := by
  decide

/-- C2 (amended): speech dispatches are issued in exactly the order the
utterances are extracted from the stream, but the caller does not await a
dispatch's settlement before issuing the next one (its trace has no
settlement awaits at all); non-overlap of audible playback — a later unit
never starting before an earlier unit's playback completes — is provided by
the external `speakCharacter` capability, modelled from the spec as a
serial playback schedule. -/
theorem claim2_order_and_no_await :
    (∀ (cs : List (List Char)) (st : TurnState) (i : Nat),
      issuedTexts (turnTraceAux st i cs) = spokenList (runChunks st cs).2) ∧
    (∀ cs : List (List Char), noSettle (turnTrace cs) = true) ∧
    (∀ (ds : List Nat) (t : Nat) (i : Nat)
        (h : i + 1 < (schedulePlayback t ds).length),
      ((schedulePlayback t ds).get ⟨i, Nat.lt_of_succ_lt h⟩).2 ≤
      ((schedulePlayback t ds).get ⟨i + 1, h⟩).1) :=
  ⟨issuedTexts_eq_spokenList,
   fun cs => noSettle_turnTraceAux cs initialTurn 0,
   schedulePlayback_chain⟩

/-- C2 witness: the amended statement instantiated on the two-chunk run
and on a concrete two-unit playback schedule. -/
theorem claim2_order_and_no_await_witness :
    issuedTexts (turnTraceAux initialTurn 0 ["First. ".toList, "Second.".toList]) =
      spokenList (runChunks initialTurn ["First. ".toList, "Second.".toList]).2 ∧
    noSettle (turnTrace ["First. ".toList, "Second.".toList]) = true ∧
    ((schedulePlayback 0 [3, 4]).get ⟨0, by decide⟩).2 ≤
      ((schedulePlayback 0 [3, 4]).get ⟨1, by decide⟩).1 :=
  ⟨claim2_order_and_no_await.1 ["First. ".toList, "Second.".toList] initialTurn 0,
   claim2_order_and_no_await.2.1 ["First. ".toList, "Second.".toList],
   claim2_order_and_no_await.2.2 [3, 4] 0 0 (by decide)⟩

/-! ## The busy gate (C5) -/

/-- C5 counterexample: with a busy flag set, the callback's refusal carries
the literal message `"System is busy processing previous message"`, not the
claimed `{processed: false, error: "system busy"}`. -/
theorem claim5_counterexample :
    ¬ ((llmCallbackModel true false false).1 =
        ⟨false, some "system busy"⟩) := by
  decide

/-- C5 (amended): the callback refuses synchronously with
`{processed: false, error: "System is busy processing previous message"}`,
without invoking the chat pipeline, exactly when at least one of the three
flags (turn in progress, dispatcher speaking, audio playing) is true; when
all three are false the message is processed (the pipeline is invoked and
`{processed: true}` is returned).  A refused message is not handed to the
pipeline at all, so it is never queued. -/
theorem claim5_busy_gate (cp ai pa : Bool) :
    ((llmCallbackModel cp ai pa).1 = ⟨false, some busyMessage⟩ ∧
       (llmCallbackModel cp ai pa).2 = false
     ↔ (cp = true ∨ ai = true ∨ pa = true)) ∧
    ((cp = false ∧ ai = false ∧ pa = false) →
      (llmCallbackModel cp ai pa).1 = ⟨true, none⟩ ∧
      (llmCallbackModel cp ai pa).2 = true) := by
  cases cp <;> cases ai <;> cases pa <;> decide

/-- C5 witness: a turn in progress alone triggers the refusal, and the
all-clear state processes the message. -/
theorem claim5_busy_gate_witness :
    ((llmCallbackModel true false false).1 = ⟨false, some busyMessage⟩ ∧
     (llmCallbackModel true false false).2 = false) ∧
    ((llmCallbackModel false false false).1 = ⟨true, none⟩ ∧
     (llmCallbackModel false false false).2 = true) :=
  ⟨(claim5_busy_gate true false false).1.mpr (Or.inl rfl),
   (claim5_busy_gate false false false).2 ⟨rfl, rfl, rfl⟩⟩

/-! ## The speech dispatch wrapper (C6) -/

/-- C6: every dispatch sets the speaking flag true before issuing the
synthesis/playback request, resets it to false on the guaranteed `finally`
path whether the request resolves or raises — so after the call settles the
flag is false from any prior value — and a failure is caught inside the
dispatch and never propagates out of it. -/
theorem claim6_speaking_flag (outcome : Except String Unit) (b : Bool) :
    (handleSpeakAiRun outcome).2 = none ∧
    (handleSpeakAiRun outcome).1.take 2 =
      [SpeakEv.setSpeaking true, SpeakEv.requestSpeech] ∧
    (handleSpeakAiRun outcome).1.getLast? = some (SpeakEv.setSpeaking false) ∧
    speakingAfter b (handleSpeakAiRun outcome).1 = false := by
  cases outcome with
  | ok u => exact ⟨rfl, rfl, rfl, rfl⟩
  | error e => exact ⟨rfl, rfl, rfl, rfl⟩

/-! ## Lemmas about the command-channel client -/

theorem timerInvB_none_out (st : ClientState) (h : timerInvB st = true)
    (h0 : st.timerField = none) : st.outstanding = [] := by
  simp [timerInvB, h0] at h
  exact h

theorem timerInvB_some_out (st : ClientState) (i : Nat)
    (h : timerInvB st = true) (hi : st.timerField = some i) :
    st.outstanding = [i] := by
  simp [timerInvB, hi] at h
  exact h

theorem deadStep (st : ClientState) (h1 : st.destroyed = true)
    (h2 : st.ws = none) (h3 : st.timerField = none) (e : ClientEv) :
    (clientStep st e).2 = [] ∧ (clientStep st e).1.destroyed = true ∧
    (clientStep st e).1.ws = none ∧ (clientStep st e).1.timerField = none := by
  cases e with
  | evConnect => simp [clientStep, connectStep, h1, h2, h3]
  | evWsOpen => simp [clientStep, wsOpenStep, h1, h2, h3]
  | evWsClose => simp [clientStep, wsCloseStep, h1, h2, h3]
  | evTimerFire id =>
    show (timerFireStep st id).2 = [] ∧ (timerFireStep st id).1.destroyed = true ∧
      (timerFireStep st id).1.ws = none ∧ (timerFireStep st id).1.timerField = none
    unfold timerFireStep
    split
    · simp [connectStep, h1, h2]
    · simp [h1, h2, h3]
  | evDisconnect =>
    simp [clientStep, disconnectStep, h2, h3, timerCancelEffs, closeEffs, cancelAll]

theorem deadRun :
    ∀ (evs : List ClientEv) (st : ClientState), st.destroyed = true →
      st.ws = none → st.timerField = none → (runClient st evs).2 = [] := by
  intro evs
  induction evs with
  | nil => intro st _ _ _; rfl
  | cons e es ih =>
    intro st h1 h2 h3
    obtain ⟨he, hd, hw, ht⟩ := deadStep st h1 h2 h3 e
    show (clientStep st e).2 ++ (runClient (clientStep st e).1 es).2 = []
    rw [he, ih (clientStep st e).1 hd hw ht]
    rfl

/-- C7: `disconnect()` permanently destroys the client: the pending
reconnect timer is cancelled, the transport callbacks are detached before
the transport is closed, a subsequent `connect()` is a no-op, and no
reconnection attempt — in fact no externally visible client effect at
all — ever occurs afterwards, whatever events follow. -/
theorem claim7_disconnect_permanent (st : ClientState) (evs : List ClientEv) :
    (disconnectStep st).1.destroyed = true ∧
    (disconnectStep st).1.timerField = none ∧
    (disconnectStep st).1.ws = none ∧
    (disconnectStep st).1.connected = false ∧
    (∀ s : Socket, st.ws = some s →
      ∃ pre, (disconnectStep st).2 =
        pre ++ [Eff.detachHandlers, Eff.closeSocket]) ∧
    connectStep (disconnectStep st).1 = ((disconnectStep st).1, []) ∧
    (runClient (disconnectStep st).1 evs).2 = [] := by
  refine ⟨rfl, rfl, rfl, rfl, ?_, ?_, ?_⟩
  · intro s hs
    refine ⟨timerCancelEffs st.timerField, ?_⟩
    show timerCancelEffs st.timerField ++ closeEffs st.ws = _
    rw [hs]
    rfl
  · rfl
  · exact deadRun evs (disconnectStep st).1 rfl rfl rfl

/-- A client state with an open attached socket and one pending timer,
used to instantiate the disconnect theorem. -/
def sampleClient : ClientState :=
  ⟨some ⟨ReadyState.opened, true⟩, some 3, [3], 4, true, false⟩

/-- C7 witness: on a connected client with a pending timer, disconnect's
effect list ends with detach-then-close in that order. -/
theorem claim7_disconnect_permanent_witness :
    ∃ pre, (disconnectStep sampleClient).2 =
      pre ++ [Eff.detachHandlers, Eff.closeSocket] :=
  (claim7_disconnect_permanent sampleClient []).2.2.2.2.1
    ⟨ReadyState.opened, true⟩ rfl

theorem connect_preserves_inv (st : ClientState) (h : timerInvB st = true) :
    timerInvB (connectStep st).1 = true := by
  unfold connectStep
  split
  · exact h
  · split
    · split
      · exact h
      · exact h
    · exact h

theorem clear_preserves_inv (st : ClientState) (h : timerInvB st = true) :
    timerInvB (clearReconnectTimer st).1 = true := by
  unfold clearReconnectTimer
  split
  · rename_i i hi
    have ho := timerInvB_some_out st i h hi
    simp [timerInvB, ho]
  · exact h

theorem schedule_preserves_inv (st : ClientState) (h : timerInvB st = true) :
    timerInvB (scheduleReconnect st).1 = true := by
  unfold scheduleReconnect
  split
  · exact h
  · rename_i ht
    have ho := timerInvB_none_out st h ht
    simp [timerInvB, ho]

theorem timerInv_step (st : ClientState) (e : ClientEv)
    (h : timerInvB st = true) : timerInvB (clientStep st e).1 = true := by
  cases e with
  | evConnect => exact connect_preserves_inv st h
  | evWsOpen =>
    show timerInvB (wsOpenStep st).1 = true
    unfold wsOpenStep
    split
    · split
      · exact clear_preserves_inv _ h
      · exact h
    · exact h
  | evWsClose =>
    show timerInvB (wsCloseStep st).1 = true
    unfold wsCloseStep
    split
    · split
      · exact schedule_preserves_inv _ h
      · exact h
    · exact h
  | evTimerFire id =>
    show timerInvB (timerFireStep st id).1 = true
    unfold timerFireStep
    split
    · rename_i hc
      apply connect_preserves_inv
      cases ht : st.timerField with
      | none =>
        have ho := timerInvB_none_out st h ht
        rw [ho] at hc
        simp at hc
      | some i =>
        have ho := timerInvB_some_out st i h ht
        rw [ho] at hc
        simp at hc
        subst hc
        simp [timerInvB, ho]
    · exact h
  | evDisconnect =>
    show timerInvB (disconnectStep st).1 = true
    cases ht : st.timerField with
    | none =>
      have ho := timerInvB_none_out st h ht
      simp [disconnectStep, timerInvB, cancelAll, ht, ho]
    | some i =>
      have ho := timerInvB_some_out st i h ht
      simp [disconnectStep, timerInvB, cancelAll, ht, ho]

theorem timerInv_run :
    ∀ (evs : List ClientEv) (st : ClientState), timerInvB st = true →
      timerInvB (runClient st evs).1 = true := by
  intro evs
  induction evs with
  | nil => intro st h; exact h
  | cons e es ih =>
    intro st h
    exact ih (clientStep st e).1 (timerInv_step st e h)

theorem timerInvB_length (st : ClientState) (h : timerInvB st = true) :
    st.outstanding.length ≤ 1 := by
  cases ht : st.timerField with
  | none => rw [timerInvB_none_out st h ht]; simp
  | some i => rw [timerInvB_some_out st i h ht]; simp

/-- C8: the client never has more than one outstanding reconnect timer in
any reachable state; a schedule request while a timer is pending is a
no-op; a transport close (with callbacks attached) leaves exactly one
pending timer, newly started with the fixed delay only when none was
pending; and the delay is the fixed default of 5000 ms. -/
theorem claim8_single_timer :
    (∀ evs : List ClientEv,
      timerInvB (runClient initialClient evs).1 = true ∧
      (runClient initialClient evs).1.outstanding.length ≤ 1) ∧
    (∀ (st : ClientState) (i : Nat), st.timerField = some i →
      scheduleReconnect st = (st, [])) ∧
    (∀ (st : ClientState) (s : Socket), timerInvB st = true →
      st.ws = some s → s.handlersAttached = true →
      (wsCloseStep st).1.outstanding.length = 1 ∧
      (wsCloseStep st).2 = Eff.notifyChange false ::
        (match st.timerField with
         | none => [Eff.startTimer st.nextId reconnectInterval]
         | some _ => [])) ∧
    reconnectInterval = 5000 := by
  refine ⟨?_, ?_, ?_, rfl⟩
  · intro evs
    have h := timerInv_run evs initialClient rfl
    exact ⟨h, timerInvB_length _ h⟩
  · intro st i hi
    unfold scheduleReconnect
    rw [hi]
  · intro st s hinv hws hat
    have hred : wsCloseStep st =
        ((scheduleReconnect (wsCloseAfter st s)).1,
         Eff.notifyChange false :: (scheduleReconnect (wsCloseAfter st s)).2) := by
      unfold wsCloseStep
      rw [hws]
      dsimp only
      rw [if_pos hat]
    rw [hred]
    cases ht : st.timerField with
    | none =>
      have ho := timerInvB_none_out st hinv ht
      unfold scheduleReconnect wsCloseAfter
      simp [ht, ho]
    | some i =>
      have ho := timerInvB_some_out st i hinv ht
      unfold scheduleReconnect wsCloseAfter
      simp [ht, ho]

/-- C8 witness: after a connect and a transport close from the initial
state, the invariant holds; a pending-timer schedule request is a no-op on
a concrete state; and a close with no pending timer leaves exactly one. -/
theorem claim8_single_timer_witness :
    timerInvB (runClient initialClient
      [ClientEv.evConnect, ClientEv.evWsClose]).1 = true ∧
    scheduleReconnect ⟨none, some 5, [5], 6, false, false⟩ =
      (⟨none, some 5, [5], 6, false, false⟩, []) ∧
    (wsCloseStep ⟨some ⟨ReadyState.opened, true⟩, none, [], 0, true, false⟩).1.outstanding.length = 1 :=
  ⟨(claim8_single_timer.1 [ClientEv.evConnect, ClientEv.evWsClose]).1,
   claim8_single_timer.2.1 ⟨none, some 5, [5], 6, false, false⟩ 5 rfl,
   (claim8_single_timer.2.2.1 ⟨some ⟨ReadyState.opened, true⟩, none, [], 0, true, false⟩
      ⟨ReadyState.opened, true⟩ (by decide) rfl rfl).1⟩

/-- C9: the claim fails on the code.  The `onCommand` handler is registered
once, in an effect with dependency list `[viewer]` guarded by
`!avatarClient.current` (part_000, lines 327-438), so its closure holds the
`isAISpeaking` value of that registration render — `false` — forever.  At
the failing input — a `getStatus` processed on a connected client while the
dispatcher's flag is `true` — the code transmits exactly one status frame
carrying `speaking: false`, the stale captured value, and not the frame
with `speaking: true` that the claim requires at processing time. -/
theorem claim9_stale_status_flag :
    sendAll ⟨some ⟨ReadyState.opened, true⟩, none, [], 0, true, false⟩
        (processCommand initialRegistration Command.getStatusCmd).2 =
      [Eff.sendFrame (OutFrame.statusFrame true false "neutral")] ∧
    ¬ (sendAll ⟨some ⟨ReadyState.opened, true⟩, none, [], 0, true, false⟩
        (processCommand initialRegistration Command.getStatusCmd).2 =
      [Eff.sendFrame (OutFrame.statusFrame true true "neutral")]) := by
  exact ⟨by decide, by decide⟩

/-- C10: calling `connect()` while the current socket is already open is a
no-op: the state is unchanged and no effect — no socket creation, no
frame — is produced. -/
theorem claim10_connect_idempotent (st : ClientState) (s : Socket)
    (h1 : st.ws = some s) (h2 : s.readyState = ReadyState.opened) :
    connectStep st = (st, []) := by
  unfold connectStep
  split
  · rfl
  · rw [h1]
    simp [h2]

/-- C10 witness: connect on a concrete client whose socket is open. -/
theorem claim10_connect_idempotent_witness :
    connectStep ⟨some ⟨ReadyState.opened, false⟩, none, [], 0, true, false⟩ =
      (⟨some ⟨ReadyState.opened, false⟩, none, [], 0, true, false⟩, []) :=
  claim10_connect_idempotent
    ⟨some ⟨ReadyState.opened, false⟩, none, [], 0, true, false⟩
    ⟨ReadyState.opened, false⟩ rfl rfl

end ChatVRM
